import Mathlib

/-!
Verification of the mitre-mcp ATT&CK ingestion/indexing core.

This file shallowly embeds `src/data/parser.ts`, `src/data/index.ts`
(the `AttackDataStore` class), `src/types.ts` and the cache policy of
`src/data/loader.ts` / `AttackDataStore.initialize` into Lean, and proves
or refutes the frozen claims about them.

JavaScript strings are modelled by Lean `String`; `toUpperCase`,
`toLowerCase`, `includes`, `split(".")[0]` are modelled by list-of-char
operations (`strUpper`, `strLower`, `strContains`, `headSegment`) so that
everything evaluates by kernel reduction.  A JS `Map` is modelled by an
insertion-ordered association list (`SMap`) whose `set` replaces the value
in place on a key hit and appends on a miss, exactly like `Map.set`.
-/

namespace Mitre

/-- Model of `s.toUpperCase()` (ASCII, as `Char.toUpper`). -/
def strUpper (s : String) : String := ⟨s.data.map Char.toUpper⟩

/-- Model of `s.toLowerCase()` (ASCII, as `Char.toLower`). -/
def strLower (s : String) : String := ⟨s.data.map Char.toLower⟩

/-- Does the second list occur as a prefix of the first? -/
def listStarts : List Char → List Char → Bool
  | [], _ => true
  | _ :: _, [] => false
  | a :: as, b :: bs => a == b && listStarts as bs

/-- Does `needle` occur contiguously inside the second list? -/
def listHasSub (needle : List Char) : List Char → Bool
  | [] => needle.isEmpty
  | b :: bs => listStarts needle (b :: bs) || listHasSub needle bs

/-- Model of `hay.includes(sub)` on JS strings. -/
def strContains (hay sub : String) : Bool := listHasSub sub.data hay.data

/-- Model of `id.split(".")[0]`: the prefix of `id` before the first `'.'`. -/
def headSegment (s : String) : String := ⟨s.data.takeWhile (fun c => !(c == '.'))⟩

/-- Insertion-ordered association map, the model of a JS `Map` with string keys. -/
abbrev SMap (α : Type) := List (String × α)

/-- Model of `Map.set`: replace in place on key hit, append on miss. -/
def mapSet (k : String) (v : α) : SMap α → SMap α
  | [] => [(k, v)]
  | (k', v') :: rest => if k' = k then (k', v) :: rest else (k', v') :: mapSet k v rest

/-- Model of `Map.get`. -/
def mapGet : SMap α → String → Option α
  | [], _ => none
  | (k', v) :: rest, k => if k' = k then some v else mapGet rest k

/-- Model of `Array.from(map.values())` for an `SMap`. -/
def mapValues (m : SMap α) : List α := m.map (·.2)

/-- Run a sequence of `Map.set` operations (one per pair, in order). -/
def loadPairs (m : SMap α) : List (String × α) → SMap α
  | [] => m
  | (k, v) :: ps => loadPairs (mapSet k v m) ps

/-- Value of the last pair with the given key, if any. -/
def lastVal : List (String × α) → String → Option α
  | [], _ => none
  | (k', v) :: ps, k =>
    match lastVal ps k with
    | some w => some w
    | none => if k' = k then some v else none

/-- Left-biased choice on options, the model of JS `a || b` on objects. -/
def oOr : Option α → Option α → Option α
  | some v, _ => some v
  | none, b => b

/-- Stable insertion of one element into a list ordered by a numeric key. -/
def insByKey (key : α → Nat) (a : α) : List α → List α
  | [] => [a]
  | b :: l => if key a ≤ key b then a :: b :: l else b :: insByKey key a l

/-- Stable ascending sort by a numeric key; models `arr.sort((a, b) => key(a) - key(b))`. -/
def sortByKey (key : α → Nat) : List α → List α
  | [] => []
  | a :: l => insByKey key a (sortByKey key (l))

/-- Number of occurrences of `a` in `l`. -/
def countOccur [DecidableEq α] (a : α) (l : List α) : Nat :=
  (l.filter (fun x => x = a)).length

/-! ## Raw STIX model (`src/types.ts`)

A raw graph object is loosely typed: every kind-specific field is optional,
mirroring the TypeScript `StixObject` hierarchy where each subtype merely
adds optional fields.  A missing field is `none` (JS `undefined`). -/

structure StixExternalReference where
  source_name : String
  external_id : Option String
  url : Option String
deriving Repr, DecidableEq

structure StixKillChainPhase where
  kill_chain_name : String
  phase_name : String
deriving Repr, DecidableEq

structure StixObject where
  id : String
  type : String
  name : Option String
  description : Option String
  external_references : Option (List StixExternalReference)
  x_mitre_deprecated : Option Bool
  revoked : Option Bool
  kill_chain_phases : Option (List StixKillChainPhase)
  x_mitre_platforms : Option (List String)
  x_mitre_data_sources : Option (List String)
  x_mitre_detection : Option String
  x_mitre_is_subtechnique : Option Bool
  x_mitre_shortname : Option String
  aliases : Option (List String)
  x_mitre_data_source_ref : Option String
  relationship_type : Option String
  source_ref : Option String
  target_ref : Option String
deriving Repr, DecidableEq

/-- A raw object with every optional field absent; concrete fixtures
override just the fields they need, as the JSON test fixtures do. -/
def blankObj (oid ty : String) : StixObject :=
  ⟨oid, ty, none, none, none, none, none, none, none, none, none, none, none, none, none, none, none, none⟩

structure StixBundle where
  id : String
  objects : List StixObject
deriving Repr, DecidableEq

/-! ## Parsed entity model (`src/types.ts`) -/

structure AttackReference where
  source : String
  url : Option String
deriving Repr, DecidableEq

structure AttackTechnique where
  id : String
  stixId : String
  name : String
  description : String
  tactics : List String
  platforms : List String
  dataSources : List String
  detection : String
  isSubtechnique : Bool
  parentId : Option String
  deprecated : Bool
  revoked : Bool
  references : List AttackReference
deriving Repr, DecidableEq

structure AttackTactic where
  id : String
  stixId : String
  name : String
  shortName : String
  description : String
  order : Nat
deriving Repr, DecidableEq

structure AttackGroup where
  id : String
  stixId : String
  name : String
  aliases : List String
  description : String
  deprecated : Bool
  revoked : Bool
  references : List AttackReference
deriving Repr, DecidableEq

structure AttackSoftware where
  id : String
  stixId : String
  name : String
  type : String
  aliases : List String
  description : String
  platforms : List String
  deprecated : Bool
  revoked : Bool
  references : List AttackReference
deriving Repr, DecidableEq

structure AttackMitigation where
  id : String
  stixId : String
  name : String
  description : String
  deprecated : Bool
  revoked : Bool
  references : List AttackReference
deriving Repr, DecidableEq

structure AttackDataSource where
  id : String
  stixId : String
  name : String
  description : String
  platforms : List String
  references : List AttackReference
deriving Repr, DecidableEq

structure AttackDataComponent where
  id : String
  stixId : String
  name : String
  description : String
  dataSourceId : String
deriving Repr, DecidableEq

structure AttackRelationship where
  sourceRef : String
  targetRef : String
  relationshipType : String
  description : String
deriving Repr, DecidableEq

/-- Canonical kill-chain ordering table (`ENTERPRISE_TACTIC_ORDER` in `src/types.ts`). -/
def ENTERPRISE_TACTIC_ORDER : List (String × Nat) :=
  [("reconnaissance", 0), ("resource-development", 1), ("initial-access", 2),
   ("execution", 3), ("persistence", 4), ("privilege-escalation", 5),
   ("defense-evasion", 6), ("credential-access", 7), ("discovery", 8),
   ("lateral-movement", 9), ("collection", 10), ("command-and-control", 11),
   ("exfiltration", 12), ("impact", 13)]

/-- Record lookup `tacticOrder[shortName]`, `undefined` when absent. -/
def lookupOrder : List (String × Nat) → String → Option Nat
  | [], _ => none
  | (k, v) :: rest, s => if k = s then some v else lookupOrder rest s

/-! ## Parser (`src/data/parser.ts`) -/

/-- `getExternalId`: the `external_id` of the first reference whose
`source_name` is `"mitre-attack"`, or `""`. -/
def getExternalId (refs : Option (List StixExternalReference)) : String :=
  match refs with
  | none => ""
  | some rs =>
    match rs.find? (fun r => r.source_name == "mitre-attack") with
    | none => ""
    | some r => r.external_id.getD ""

/-- `parseReferences`: keep references with a truthy `url`. -/
def parseReferences (refs : Option (List StixExternalReference)) : List AttackReference :=
  match refs with
  | none => []
  | some rs =>
    (rs.filter (fun r => !(r.url.getD "" == ""))).map (fun r => ⟨r.source_name, r.url⟩)

/-- Truthiness of `obj.name` (`!!obj.name`): present and non-empty. -/
def hasName (o : StixObject) : Bool := !(o.name.getD "" == "")

/-- `parseTechniques`. -/
def parseTechniques (b : StixBundle) : List AttackTechnique :=
  (b.objects.filter (fun o => o.type == "attack-pattern" && hasName o)).map (fun ap =>
    let pid := getExternalId ap.external_references
    let tacs := ((ap.kill_chain_phases.getD []).filter
        (fun kc => strContains kc.kill_chain_name "attack")).map (fun kc => kc.phase_name)
    let isSub := ap.x_mitre_is_subtechnique == some true || strContains pid "."
    { id := pid
      stixId := ap.id
      name := ap.name.getD ""
      description := ap.description.getD ""
      tactics := tacs
      platforms := ap.x_mitre_platforms.getD []
      dataSources := ap.x_mitre_data_sources.getD []
      detection := ap.x_mitre_detection.getD ""
      isSubtechnique := isSub
      parentId := if isSub then some (headSegment pid) else none
      deprecated := ap.x_mitre_deprecated == some true
      revoked := ap.revoked == some true
      references := parseReferences ap.external_references })

/-- `parseTactics` (including its final sort by `order`). -/
def parseTactics (b : StixBundle) (tacticOrder : List (String × Nat)) : List AttackTactic :=
  sortByKey (fun t => t.order)
    ((b.objects.filter (fun o => o.type == "x-mitre-tactic" && hasName o)).map (fun t =>
      let short := t.x_mitre_shortname.getD ""
      { id := getExternalId t.external_references
        stixId := t.id
        name := t.name.getD ""
        shortName := short
        description := t.description.getD ""
        order := (lookupOrder tacticOrder short).getD 99 }))

/-- `parseGroups`. -/
def parseGroups (b : StixBundle) : List AttackGroup :=
  (b.objects.filter (fun o => o.type == "intrusion-set" && hasName o)).map (fun g =>
    { id := getExternalId g.external_references
      stixId := g.id
      name := g.name.getD ""
      aliases := g.aliases.getD []
      description := g.description.getD ""
      deprecated := g.x_mitre_deprecated == some true
      revoked := g.revoked == some true
      references := parseReferences g.external_references })

/-- `parseSoftware`: malware objects then tool objects. -/
def parseSoftware (b : StixBundle) : List AttackSoftware :=
  ((b.objects.filter (fun o => o.type == "malware" && hasName o)).map (fun m =>
    { id := getExternalId m.external_references
      stixId := m.id
      name := m.name.getD ""
      type := "malware"
      aliases := m.aliases.getD []
      description := m.description.getD ""
      platforms := m.x_mitre_platforms.getD []
      deprecated := m.x_mitre_deprecated == some true
      revoked := m.revoked == some true
      references := parseReferences m.external_references })) ++
  ((b.objects.filter (fun o => o.type == "tool" && hasName o)).map (fun t =>
    { id := getExternalId t.external_references
      stixId := t.id
      name := t.name.getD ""
      type := "tool"
      aliases := t.aliases.getD []
      description := t.description.getD ""
      platforms := t.x_mitre_platforms.getD []
      deprecated := t.x_mitre_deprecated == some true
      revoked := t.revoked == some true
      references := parseReferences t.external_references }))

/-- `parseMitigations`. -/
def parseMitigations (b : StixBundle) : List AttackMitigation :=
  (b.objects.filter (fun o => o.type == "course-of-action" && hasName o)).map (fun c =>
    { id := getExternalId c.external_references
      stixId := c.id
      name := c.name.getD ""
      description := c.description.getD ""
      deprecated := c.x_mitre_deprecated == some true
      revoked := c.revoked == some true
      references := parseReferences c.external_references })

/-- `parseDataSources`. -/
def parseDataSources (b : StixBundle) : List AttackDataSource :=
  (b.objects.filter (fun o => o.type == "x-mitre-data-source" && hasName o)).map (fun d =>
    { id := getExternalId d.external_references
      stixId := d.id
      name := d.name.getD ""
      description := d.description.getD ""
      platforms := d.x_mitre_platforms.getD []
      references := parseReferences d.external_references })

/-- `parseDataComponents` (note: `id` is the raw graph id itself). -/
def parseDataComponents (b : StixBundle) : List AttackDataComponent :=
  (b.objects.filter (fun o => o.type == "x-mitre-data-component" && hasName o)).map (fun dc =>
    { id := dc.id
      stixId := dc.id
      name := dc.name.getD ""
      description := dc.description.getD ""
      dataSourceId := dc.x_mitre_data_source_ref.getD "" })

/-- `parseRelationships`: deprecated/revoked raw relationships are dropped. -/
def parseRelationships (b : StixBundle) : List AttackRelationship :=
  ((b.objects.filter (fun o => o.type == "relationship")).filter
    (fun r => !(r.x_mitre_deprecated == some true) && !(r.revoked == some true))).map (fun r =>
    { sourceRef := r.source_ref.getD ""
      targetRef := r.target_ref.getD ""
      relationshipType := r.relationship_type.getD ""
      description := r.description.getD "" })

/-! ## Index store (`src/data/index.ts`, class `AttackDataStore`) -/

structure AttackDataStore where
  techniques : SMap AttackTechnique
  techniquesByStixId : SMap AttackTechnique
  tactics : SMap AttackTactic
  tacticsByShortName : SMap AttackTactic
  groups : SMap AttackGroup
  groupsByStixId : SMap AttackGroup
  groupsByName : SMap AttackGroup
  software : SMap AttackSoftware
  softwareByStixId : SMap AttackSoftware
  softwareByName : SMap AttackSoftware
  mitigations : SMap AttackMitigation
  mitigationsByStixId : SMap AttackMitigation
  dataSources : SMap AttackDataSource
  dataSourcesByStixId : SMap AttackDataSource
  dataSourcesByName : SMap AttackDataSource
  dataComponents : List AttackDataComponent
  relationships : List AttackRelationship
  loaded : Bool
deriving Repr, DecidableEq

/-- The freshly constructed store: every index empty, `loaded = false`. -/
def emptyStore : AttackDataStore :=
  ⟨[], [], [], [], [], [], [], [], [], [], [], [], [], [], [], [], [], false⟩

/-- `AttackDataStore.indexBundle`: parse one bundle and insert everything
into the index maps; relationships and data components are appended. -/
def indexBundle (st : AttackDataStore) (b : StixBundle) : AttackDataStore :=
  let ts := parseTechniques b
  let tas := parseTactics b ENTERPRISE_TACTIC_ORDER
  let gs := parseGroups b
  let sws := parseSoftware b
  let ms := parseMitigations b
  let dss := parseDataSources b
  { st with
    techniques := loadPairs st.techniques (ts.map (fun t => (t.id, t)))
    techniquesByStixId := loadPairs st.techniquesByStixId (ts.map (fun t => (t.stixId, t)))
    tactics := loadPairs st.tactics (tas.map (fun t => (t.id, t)))
    tacticsByShortName := loadPairs st.tacticsByShortName (tas.map (fun t => (t.shortName, t)))
    groups := loadPairs st.groups (gs.map (fun g => (g.id, g)))
    groupsByStixId := loadPairs st.groupsByStixId (gs.map (fun g => (g.stixId, g)))
    groupsByName := loadPairs st.groupsByName
      (gs.flatMap (fun g => (strLower g.name, g) :: g.aliases.map (fun a => (strLower a, g))))
    software := loadPairs st.software (sws.map (fun s => (s.id, s)))
    softwareByStixId := loadPairs st.softwareByStixId (sws.map (fun s => (s.stixId, s)))
    softwareByName := loadPairs st.softwareByName
      (sws.flatMap (fun s => (strLower s.name, s) :: s.aliases.map (fun a => (strLower a, s))))
    mitigations := loadPairs st.mitigations (ms.map (fun m => (m.id, m)))
    mitigationsByStixId := loadPairs st.mitigationsByStixId (ms.map (fun m => (m.stixId, m)))
    dataSources := loadPairs st.dataSources (dss.map (fun d => (d.id, d)))
    dataSourcesByStixId := loadPairs st.dataSourcesByStixId (dss.map (fun d => (d.stixId, d)))
    dataSourcesByName := loadPairs st.dataSourcesByName (dss.map (fun d => (strLower d.name, d)))
    dataComponents := st.dataComponents ++ parseDataComponents b
    relationships := st.relationships ++ parseRelationships b }

/-- `AttackDataStore.loadFromBundles`: index every bundle, then mark loaded. -/
def loadFromBundles (st : AttackDataStore) (bs : List StixBundle) : AttackDataStore :=
  { bs.foldl indexBundle st with loaded := true }

/-- `getTechnique(id)`: primary map probe with the uppercased id. -/
def getTechnique (st : AttackDataStore) (id : String) : Option AttackTechnique :=
  mapGet st.techniques (strUpper id)

/-- `getTechniqueByStixId`. -/
def getTechniqueByStixId (st : AttackDataStore) (sid : String) : Option AttackTechnique :=
  mapGet st.techniquesByStixId sid

/-- `getAllTechniques(includeDeprecated = false)`. -/
def getAllTechniques (st : AttackDataStore) (includeDeprecated : Bool) : List AttackTechnique :=
  let all := mapValues st.techniques
  if includeDeprecated then all else all.filter (fun t => !t.deprecated && !t.revoked)

/-- Options record of `searchTechniques`. -/
structure TechSearchOpts where
  query : Option String
  tactic : Option String
  platform : Option String
  dataSource : Option String
  isSubtechnique : Option Bool
deriving Repr, DecidableEq

/-- Truthiness-guarded filter stage: models `if (opts.f) { results = step(opts.f, results) }`
for a string-valued option field (absent or `""` means the stage is skipped). -/
def applyIfStr (o : Option String) (step : String → List α → List α) (l : List α) : List α :=
  match o with
  | none => l
  | some s => if s == "" then l else step s l

/-- `searchTechniques`. -/
def searchTechniques (st : AttackDataStore) (opts : TechSearchOpts) : List AttackTechnique :=
  let r0 := getAllTechniques st false
  let r1 := applyIfStr opts.query (fun q l => l.filter (fun t =>
    strContains (strLower t.name) (strLower q) ||
    strContains (strLower t.description) (strLower q) ||
    strContains (strLower t.id) (strLower q))) r0
  let r2 := applyIfStr opts.tactic (fun q l => l.filter (fun t =>
    t.tactics.any (fun ta => strLower ta == strLower q))) r1
  let r3 := applyIfStr opts.platform (fun q l => l.filter (fun t =>
    t.platforms.any (fun p => strLower p == strLower q))) r2
  let r4 := applyIfStr opts.dataSource (fun q l => l.filter (fun t =>
    t.dataSources.any (fun d => strContains (strLower d) (strLower q)))) r3
  match opts.isSubtechnique with
  | none => r4
  | some b => r4.filter (fun t => t.isSubtechnique == b)

/-- `getSubtechniques(parentId)`. -/
def getSubtechniques (st : AttackDataStore) (parentId : String) : List AttackTechnique :=
  (getAllTechniques st false).filter (fun t => t.parentId == some (strUpper parentId))

/-- `getTactic(id)`: by uppercased public id, else by lowercased short name. -/
def getTactic (st : AttackDataStore) (id : String) : Option AttackTactic :=
  oOr (mapGet st.tactics (strUpper id)) (mapGet st.tacticsByShortName (strLower id))

/-- `getAllTactics()`: values sorted ascending by kill-chain order. -/
def getAllTactics (st : AttackDataStore) : List AttackTactic :=
  sortByKey (fun t => t.order) (mapValues st.tactics)

/-- `getGroup(idOrName)`. -/
def getGroup (st : AttackDataStore) (idOrName : String) : Option AttackGroup :=
  oOr (mapGet st.groups (strUpper idOrName)) (mapGet st.groupsByName (strLower idOrName))

/-- `getAllGroups(includeDeprecated = false)`. -/
def getAllGroups (st : AttackDataStore) (includeDeprecated : Bool) : List AttackGroup :=
  let all := mapValues st.groups
  if includeDeprecated then all else all.filter (fun g => !g.deprecated && !g.revoked)

/-- Options record of `searchGroups`. -/
structure GroupSearchOpts where
  query : Option String
  technique : Option String
deriving Repr, DecidableEq

/-- The `technique` stage shared by `searchGroups` and `searchSoftware`:
resolve the technique's stix id, then keep subjects with a "uses" edge to it
(the code materializes the matching source refs into a `Set` first; filtering
by membership in that set is the same predicate). -/
def applyTechniqueFilter (st : AttackDataStore) (o : Option String)
    (stixOf : α → String) (l : List α) : List α :=
  match o with
  | none => l
  | some tq =>
    if tq == "" then l else
      match mapGet st.techniques (strUpper tq) with
      | some tech => l.filter (fun x => st.relationships.any (fun r =>
          r.targetRef == tech.stixId && r.relationshipType == "uses" &&
          r.sourceRef == stixOf x))
      | none => []

/-- `searchGroups`. -/
def searchGroups (st : AttackDataStore) (opts : GroupSearchOpts) : List AttackGroup :=
  let r0 := getAllGroups st false
  let r1 := applyIfStr opts.query (fun q l => l.filter (fun g =>
    strContains (strLower g.name) (strLower q) ||
    strContains (strLower g.description) (strLower q) ||
    g.aliases.any (fun a => strContains (strLower a) (strLower q)))) r0
  applyTechniqueFilter st opts.technique (fun g => g.stixId) r1

/-- Result entry of `getGroupTechniques` / `getSoftwareTechniques`. -/
structure TechUsage where
  technique : AttackTechnique
  usage : String
deriving Repr, DecidableEq

/-- Result entry of `getGroupSoftware`. -/
structure SoftwareEntry where
  software : AttackSoftware
deriving Repr, DecidableEq

/-- Result entry of `getSoftwareGroups`. -/
structure GroupEntry where
  group : AttackGroup
deriving Repr, DecidableEq

/-- Result entry of `getMitigationsForTechnique`. -/
structure MitigationEntry where
  mitigation : AttackMitigation
  description : String
deriving Repr, DecidableEq

/-- Result entry of `getTechniquesForMitigation`. -/
structure TechniqueEntry where
  technique : AttackTechnique
  description : String
deriving Repr, DecidableEq

/-- `getGroupTechniques(groupStixId)`: "uses" edges from the group; drop
unresolvable, deprecated or revoked technique targets. -/
def getGroupTechniques (st : AttackDataStore) (groupStixId : String) : List TechUsage :=
  (st.relationships.filter (fun r =>
    r.sourceRef == groupStixId && r.relationshipType == "uses")).filterMap (fun r =>
    match mapGet st.techniquesByStixId r.targetRef with
    | none => none
    | some t => if t.deprecated || t.revoked then none else some ⟨t, r.description⟩)

/-- `getGroupSoftware(groupStixId)`: "uses" edges from the group; drop only
unresolvable software targets (no deprecation check in the source). -/
def getGroupSoftware (st : AttackDataStore) (groupStixId : String) : List SoftwareEntry :=
  (st.relationships.filter (fun r =>
    r.sourceRef == groupStixId && r.relationshipType == "uses")).filterMap (fun r =>
    match mapGet st.softwareByStixId r.targetRef with
    | none => none
    | some s => some ⟨s⟩)

/-- `getSoftware(idOrName)`. -/
def getSoftware (st : AttackDataStore) (idOrName : String) : Option AttackSoftware :=
  oOr (mapGet st.software (strUpper idOrName)) (mapGet st.softwareByName (strLower idOrName))

/-- `getAllSoftware(includeDeprecated = false)`. -/
def getAllSoftware (st : AttackDataStore) (includeDeprecated : Bool) : List AttackSoftware :=
  let all := mapValues st.software
  if includeDeprecated then all else all.filter (fun s => !s.deprecated && !s.revoked)

/-- Options record of `searchSoftware`. -/
structure SoftwareSearchOpts where
  query : Option String
  technique : Option String
  type : Option String
deriving Repr, DecidableEq

/-- `searchSoftware` (filter order as in the source: type, query, technique). -/
def searchSoftware (st : AttackDataStore) (opts : SoftwareSearchOpts) : List AttackSoftware :=
  let r0 := getAllSoftware st false
  let r1 := applyIfStr opts.type (fun ty l => l.filter (fun s => s.type == ty)) r0
  let r2 := applyIfStr opts.query (fun q l => l.filter (fun s =>
    strContains (strLower s.name) (strLower q) ||
    strContains (strLower s.description) (strLower q) ||
    s.aliases.any (fun a => strContains (strLower a) (strLower q)))) r1
  applyTechniqueFilter st opts.technique (fun s => s.stixId) r2

/-- `getSoftwareTechniques(swStixId)`: like `getGroupTechniques`, with the
software as the edge source. -/
def getSoftwareTechniques (st : AttackDataStore) (swStixId : String) : List TechUsage :=
  (st.relationships.filter (fun r =>
    r.sourceRef == swStixId && r.relationshipType == "uses")).filterMap (fun r =>
    match mapGet st.techniquesByStixId r.targetRef with
    | none => none
    | some t => if t.deprecated || t.revoked then none else some ⟨t, r.description⟩)

/-- `getSoftwareGroups(swStixId)`: "uses" edges into the software; drop only
unresolvable group sources (no deprecation check in the source). -/
def getSoftwareGroups (st : AttackDataStore) (swStixId : String) : List GroupEntry :=
  (st.relationships.filter (fun r =>
    r.targetRef == swStixId && r.relationshipType == "uses")).filterMap (fun r =>
    match mapGet st.groupsByStixId r.sourceRef with
    | none => none
    | some g => some ⟨g⟩)

/-- `getMitigation(id)`. -/
def getMitigation (st : AttackDataStore) (id : String) : Option AttackMitigation :=
  mapGet st.mitigations (strUpper id)

/-- `getAllMitigations(includeDeprecated = false)`. -/
def getAllMitigations (st : AttackDataStore) (includeDeprecated : Bool) : List AttackMitigation :=
  let all := mapValues st.mitigations
  if includeDeprecated then all else all.filter (fun m => !m.deprecated && !m.revoked)

/-- `getMitigationsForTechnique(techniqueId)`. -/
def getMitigationsForTechnique (st : AttackDataStore) (techniqueId : String) :
    List MitigationEntry :=
  match mapGet st.techniques (strUpper techniqueId) with
  | none => []
  | some tech =>
    (st.relationships.filter (fun r =>
      r.targetRef == tech.stixId && r.relationshipType == "mitigates")).filterMap (fun r =>
      match mapGet st.mitigationsByStixId r.sourceRef with
      | none => none
      | some m => if m.deprecated || m.revoked then none else some ⟨m, r.description⟩)

/-- `getTechniquesForMitigation(mitigationId)`. -/
def getTechniquesForMitigation (st : AttackDataStore) (mitigationId : String) :
    List TechniqueEntry :=
  match mapGet st.mitigations (strUpper mitigationId) with
  | none => []
  | some mit =>
    (st.relationships.filter (fun r =>
      r.sourceRef == mit.stixId && r.relationshipType == "mitigates")).filterMap (fun r =>
      match mapGet st.techniquesByStixId r.targetRef with
      | none => none
      | some t => if t.deprecated || t.revoked then none else some ⟨t, r.description⟩)

/-- `getDataSource(idOrName)`. -/
def getDataSource (st : AttackDataStore) (idOrName : String) : Option AttackDataSource :=
  oOr (mapGet st.dataSources (strUpper idOrName)) (mapGet st.dataSourcesByName (strLower idOrName))

/-- `getAllDataSources()`. -/
def getAllDataSources (st : AttackDataStore) : List AttackDataSource :=
  mapValues st.dataSources

/-- `getComponentsForDataSource(dsStixId)` (direct foreign-key filter). -/
def getComponentsForDataSource (st : AttackDataStore) (dsStixId : String) :
    List AttackDataComponent :=
  st.dataComponents.filter (fun dc => dc.dataSourceId == dsStixId)

/-- `getTechniquesDetectedByComponent(componentStixId)`: "detects" edges from
the component; drop unresolvable, deprecated or revoked techniques. -/
def getTechniquesDetectedByComponent (st : AttackDataStore) (componentStixId : String) :
    List AttackTechnique :=
  ((st.relationships.filter (fun r =>
    r.sourceRef == componentStixId && r.relationshipType == "detects")).map
      (fun r => r.targetRef)).filterMap (fun i =>
    match mapGet st.techniquesByStixId i with
    | none => none
    | some t => if !t.deprecated && !t.revoked then some t else none)

/-! ## Cache policy and `initialize` (`src/data/loader.ts`, `index.ts`)

The filesystem and network are modelled by an environment record:
`filesPresent` is `hasCachedData` (every configured matrix has a cache
file), `stale` is `isCacheStale`, `cachedParse` is the result of
`loadCachedBundles` (`none` when a file is missing or unparseable), and
`fetchResult` is `downloadAllMatrices` (`none` models a thrown fetch
error).  `initStore` is `AttackDataStore.initialize`; a thrown error is
modelled by returning the untouched store with `some` message. -/

structure CacheEnv where
  filesPresent : Bool
  stale : Bool
  cachedParse : Option (List StixBundle)
  fetchResult : Option (List StixBundle)
deriving Repr, DecidableEq

/-- `AttackDataStore.initialize` over a `CacheEnv`. -/
def initStore (env : CacheEnv) (st : AttackDataStore) : AttackDataStore × Option String :=
  let b0 : Option (List StixBundle) :=
    if env.filesPresent && !env.stale then env.cachedParse else none
  match b0 with
  | some bs => (loadFromBundles st bs, none)
  | none =>
    match env.fetchResult with
    | some bs => (loadFromBundles st bs, none)
    | none =>
      match env.cachedParse with
      | some bs => (loadFromBundles st bs, none)
      | none => (st, some "Failed to load ATT&CK data")

/-! ## Concrete fixtures

A small bundle in the shape of the repository's mock bundle in
`tests/mapping.test.ts`, plus special-purpose bundles for the edge cases. -/

/-- Reference entry `{ source_name: "mitre-attack", external_id: eid }`. -/
def mitreRef (eid : String) : StixExternalReference := ⟨"mitre-attack", some eid, none⟩

/-- Kill-chain phase `{ kill_chain_name: "mitre-attack", phase_name: p }`. -/
def kcPhase (p : String) : StixKillChainPhase := ⟨"mitre-attack", p⟩

def objT1059 : StixObject :=
  { blankObj "attack-pattern--t1059" "attack-pattern" with
    name := some "Command and Scripting Interpreter"
    description := some "Adversaries may abuse command and script interpreters."
    external_references := some [mitreRef "T1059"]
    kill_chain_phases := some [kcPhase "execution"]
    x_mitre_platforms := some ["Windows", "Linux", "macOS"]
    x_mitre_data_sources := some ["Command: Command Execution"]
    x_mitre_is_subtechnique := some false }

def objT1566 : StixObject :=
  { blankObj "attack-pattern--t1566" "attack-pattern" with
    name := some "Phishing"
    description := some "Adversaries may send phishing messages."
    external_references := some [mitreRef "T1566"]
    kill_chain_phases := some [kcPhase "initial-access"]
    x_mitre_platforms := some ["Windows", "Linux", "macOS", "Cloud"]
    x_mitre_is_subtechnique := some false }

def objT9998 : StixObject :=
  { blankObj "attack-pattern--t9998" "attack-pattern" with
    name := some "Old Technique"
    description := some "A deprecated technique."
    external_references := some [mitreRef "T9998"]
    x_mitre_deprecated := some true }

def objTacIA : StixObject :=
  { blankObj "x-mitre-tactic--ia" "x-mitre-tactic" with
    name := some "Initial Access"
    description := some "Get into your network."
    external_references := some [mitreRef "TA0001"]
    x_mitre_shortname := some "initial-access" }

def objTacEx : StixObject :=
  { blankObj "x-mitre-tactic--exec" "x-mitre-tactic" with
    name := some "Execution"
    description := some "Run malicious code."
    external_references := some [mitreRef "TA0002"]
    x_mitre_shortname := some "execution" }

def objApt28 : StixObject :=
  { blankObj "intrusion-set--apt28" "intrusion-set" with
    name := some "APT28"
    description := some "APT28 is attributed to Russia."
    aliases := some ["APT28", "Fancy Bear"]
    external_references := some [mitreRef "G0007"] }

def objMimikatz : StixObject :=
  { blankObj "malware--mimikatz" "malware" with
    name := some "Mimikatz"
    description := some "Mimikatz is a credential dumper."
    aliases := some ["Mimikatz"]
    x_mitre_platforms := some ["Windows"]
    external_references := some [mitreRef "S0002"] }

def objM1038 : StixObject :=
  { blankObj "course-of-action--m1038" "course-of-action" with
    name := some "Execution Prevention"
    description := some "Block execution of code."
    external_references := some [mitreRef "M1038"] }

def objDsProcess : StixObject :=
  { blankObj "x-mitre-data-source--process" "x-mitre-data-source" with
    name := some "Process"
    description := some "Information about running programs."
    external_references := some [mitreRef "DS0009"] }

def objDcProcCreation : StixObject :=
  { blankObj "x-mitre-data-component--pc" "x-mitre-data-component" with
    name := some "Process Creation"
    description := some "Birth of a new process."
    x_mitre_data_source_ref := some "x-mitre-data-source--process" }

/-- Relationship raw object. -/
def relObj (oid ty src tgt : String) : StixObject :=
  { blankObj oid "relationship" with
    relationship_type := some ty
    source_ref := some src
    target_ref := some tgt }

def mockBundle : StixBundle :=
  ⟨"bundle--mock",
   [objT1059, objT1566, objT9998, objTacIA, objTacEx, objApt28, objMimikatz,
    objM1038, objDsProcess, objDcProcCreation,
    relObj "rel--1" "uses" "intrusion-set--apt28" "attack-pattern--t1059",
    relObj "rel--2" "uses" "intrusion-set--apt28" "attack-pattern--t1566",
    relObj "rel--3" "uses" "intrusion-set--apt28" "malware--mimikatz",
    relObj "rel--4" "uses" "malware--mimikatz" "attack-pattern--t1059",
    relObj "rel--5" "mitigates" "course-of-action--m1038" "attack-pattern--t1059",
    relObj "rel--6" "detects" "x-mitre-data-component--pc" "attack-pattern--t1059"]⟩

def mockStore : AttackDataStore := loadFromBundles emptyStore [mockBundle]

/-- Fixture for C1: a group with a "uses" edge to a deprecated software. -/
def c1Bundle : StixBundle :=
  ⟨"bundle--c1",
   [{ blankObj "intrusion-set--g1" "intrusion-set" with
      name := some "G1"
      external_references := some [mitreRef "G0001"] },
    { blankObj "malware--dep1" "malware" with
      name := some "DepSW"
      external_references := some [mitreRef "S0999"]
      x_mitre_deprecated := some true },
    relObj "rel--c1" "uses" "intrusion-set--g1" "malware--dep1"]⟩

def c1Store : AttackDataStore := loadFromBundles emptyStore [c1Bundle]

/-- Fixture for C2: a technique whose public id contains lowercase letters. -/
def c2Bundle : StixBundle :=
  ⟨"bundle--c2",
   [{ blankObj "attack-pattern--low" "attack-pattern" with
      name := some "LowerTech"
      external_references := some [mitreRef "t9999x"] }]⟩

def c2Store : AttackDataStore := loadFromBundles emptyStore [c2Bundle]

/-- Fixture for C3: the explicit sub-technique flag is set but the object has
no reference list, so its extracted public id is `""`. -/
def c3Bundle : StixBundle :=
  ⟨"bundle--c3",
   [{ blankObj "attack-pattern--flag" "attack-pattern" with
      name := some "FlaggedNoId"
      x_mitre_is_subtechnique := some true }]⟩

/-- The parsed form of `objT1059` (checked by kernel evaluation where used). -/
def techT1059 : AttackTechnique :=
  { id := "T1059"
    stixId := "attack-pattern--t1059"
    name := "Command and Scripting Interpreter"
    description := "Adversaries may abuse command and script interpreters."
    tactics := ["execution"]
    platforms := ["Windows", "Linux", "macOS"]
    dataSources := ["Command: Command Execution"]
    detection := ""
    isSubtechnique := false
    parentId := none
    deprecated := false
    revoked := false
    references := [] }

/-- The parsed form of `objT9998`, a deprecated technique. -/
def techT9998 : AttackTechnique :=
  { id := "T9998"
    stixId := "attack-pattern--t9998"
    name := "Old Technique"
    description := "A deprecated technique."
    tactics := []
    platforms := []
    dataSources := []
    detection := ""
    isSubtechnique := false
    parentId := none
    deprecated := true
    revoked := false
    references := [] }

/-- The parsed form of the deprecated software in `c1Bundle`. -/
def swDep : AttackSoftware :=
  { id := "S0999"
    stixId := "malware--dep1"
    name := "DepSW"
    type := "malware"
    aliases := []
    description := ""
    platforms := []
    deprecated := true
    revoked := false
    references := [] }

/-- The parsed "uses" relationship of `c1Bundle`. -/
def relC1 : AttackRelationship :=
  ⟨"intrusion-set--g1", "malware--dep1", "uses", ""⟩

/-- The parsed form of `objMimikatz`. -/
def swMimikatz : AttackSoftware :=
  { id := "S0002"
    stixId := "malware--mimikatz"
    name := "Mimikatz"
    type := "malware"
    aliases := ["Mimikatz"]
    description := "Mimikatz is a credential dumper."
    platforms := ["Windows"]
    deprecated := false
    revoked := false
    references := [] }

/-- The parsed form of `objApt28`. -/
def groupApt28 : AttackGroup :=
  { id := "G0007"
    stixId := "intrusion-set--apt28"
    name := "APT28"
    aliases := ["APT28", "Fancy Bear"]
    description := "APT28 is attributed to Russia."
    deprecated := false
    revoked := false
    references := [] }

/-- Bundle for the C3 witness: one sub-technique recognized by its id. -/
def w3Bundle : StixBundle :=
  ⟨"bundle--w3",
   [{ blankObj "attack-pattern--sub" "attack-pattern" with
      name := some "PowerShell"
      external_references := some [mitreRef "T1059.001"] }]⟩

/-- The parsed form of the only object of `w3Bundle`. -/
def subTechW : AttackTechnique :=
  { id := "T1059.001"
    stixId := "attack-pattern--sub"
    name := "PowerShell"
    description := ""
    tactics := []
    platforms := []
    dataSources := []
    detection := ""
    isSubtechnique := true
    parentId := some "T1059"
    deprecated := false
    revoked := false
    references := [] }

/-- Store invariant: every entry of the primary technique map is keyed by
its value's public id (holds for every store built by loading bundles). -/
def techKeysOk (st : AttackDataStore) : Prop :=
  ∀ p ∈ st.techniques, p.1 = p.2.id

/-- Store invariant: every tactic in the tactic map carries the order the
canonical table assigns to its short name (99 when absent). -/
def tacticOrderOk (st : AttackDataStore) : Prop :=
  ∀ t ∈ mapValues st.tactics, t.order = (lookupOrder ENTERPRISE_TACTIC_ORDER t.shortName).getD 99

/-! ## Spec-side filter semantics (written from the claims, to be compared
with the source-translated search operations) -/

/-- Case-insensitive substring match. -/
def icIncludes (hay q : String) : Bool := strContains (strLower hay) (strLower q)

/-- Keyword hit for techniques: name, description, or public id. -/
def keywordHitTech (q : String) (t : AttackTechnique) : Prop :=
  icIncludes t.name q = true ∨ icIncludes t.description q = true ∨ icIncludes t.id q = true

/-- Keyword hit for groups: name, description, or any alias. -/
def keywordHitGroup (q : String) (g : AttackGroup) : Prop :=
  icIncludes g.name q = true ∨ icIncludes g.description q = true ∨
    ∃ a ∈ g.aliases, icIncludes a q = true

/-- Keyword hit for software: name, description, or any alias. -/
def keywordHitSoftware (q : String) (s : AttackSoftware) : Prop :=
  icIncludes s.name q = true ∨ icIncludes s.description q = true ∨
    ∃ a ∈ s.aliases, icIncludes a q = true

/-- Tactic filter: some tactic short name matches case-insensitively. -/
def tacticHit (q : String) (t : AttackTechnique) : Prop :=
  ∃ ta ∈ t.tactics, strLower ta = strLower q

/-- Platform filter: some platform matches case-insensitively. -/
def platformHit (q : String) (t : AttackTechnique) : Prop :=
  ∃ p ∈ t.platforms, strLower p = strLower q

/-- Data-source filter: some data-source label contains the query. -/
def dataSourceHit (q : String) (t : AttackTechnique) : Prop :=
  ∃ d ∈ t.dataSources, icIncludes d q = true

/-- The parsed form of `objT1566`. -/
def techT1566 : AttackTechnique :=
  { id := "T1566"
    stixId := "attack-pattern--t1566"
    name := "Phishing"
    description := "Adversaries may send phishing messages."
    tactics := ["initial-access"]
    platforms := ["Windows", "Linux", "macOS", "Cloud"]
    dataSources := []
    detection := ""
    isSubtechnique := false
    parentId := none
    deprecated := false
    revoked := false
    references := [] }

/-- A store loaded once from a bundle. -/
def singleLoad (b : StixBundle) : AttackDataStore := loadFromBundles emptyStore [b]

/-- The same store after loading the identical bundle a second time. -/
def doubleLoad (b : StixBundle) : AttackDataStore := loadFromBundles (singleLoad b) [b]

/-- Does the internal id resolve to a non-deprecated, non-revoked technique? -/
def liveTechAt (st : AttackDataStore) (sid : String) : Bool :=
  match mapGet st.techniquesByStixId sid with
  | none => false
  | some t => !t.deprecated && !t.revoked

/-! ## General lemmas about the map and list models -/

theorem mapGet_mapSet (k k2 : String) (v : α) (m : SMap α) :
    mapGet (mapSet k v m) k2 = if k = k2 then some v else mapGet m k2 := by
  induction m with
  | nil => simp [mapSet, mapGet]
  | cons hd tl ih =>
    obtain ⟨k', v'⟩ := hd
    by_cases h : k' = k
    · subst h
      by_cases h2 : k' = k2 <;> simp [mapSet, mapGet, h2]
    · by_cases h2 : k' = k2
      · subst h2
        have hne : k ≠ k' := fun hh => h hh.symm
        simp [mapSet, mapGet, h, hne]
      · simp [mapSet, mapGet, h, h2, ih]

theorem mapGet_loadPairs (ps : List (String × α)) (m : SMap α) (k : String) :
    mapGet (loadPairs m ps) k = oOr (lastVal ps k) (mapGet m k) := by
  induction ps generalizing m with
  | nil => simp [loadPairs, lastVal, oOr]
  | cons hd tl ih =>
    obtain ⟨k', v⟩ := hd
    simp only [loadPairs, lastVal]
    rw [ih, mapGet_mapSet]
    cases h : lastVal tl k with
    | some w => simp [oOr]
    | none => by_cases h2 : k' = k <;> simp [oOr, h2]

theorem oOr_self_assoc (a b : Option α) : oOr a (oOr a b) = oOr a b := by
  cases a <;> rfl

theorem mapGet_loadPairs_twice (ps : List (String × α)) (m : SMap α) (k : String) :
    mapGet (loadPairs (loadPairs m ps) ps) k = mapGet (loadPairs m ps) k := by
  rw [mapGet_loadPairs, mapGet_loadPairs, oOr_self_assoc]

theorem mapGetFun_loadPairs_twice (ps : List (String × α)) (m : SMap α) :
    mapGet (loadPairs (loadPairs m ps) ps) = mapGet (loadPairs m ps) :=
  funext fun k => mapGet_loadPairs_twice ps m k

theorem mem_mapSet {p : String × α} (k : String) (v : α) (m : SMap α)
    (h : p ∈ mapSet k v m) : p = (k, v) ∨ p ∈ m := by
  induction m with
  | nil => simpa [mapSet] using h
  | cons hd tl ih =>
    obtain ⟨k', v'⟩ := hd
    by_cases hk : k' = k
    · subst hk
      simp only [mapSet, if_pos rfl] at h
      rcases List.mem_cons.1 h with h1 | h1
      · exact Or.inl h1
      · exact Or.inr (List.mem_cons_of_mem _ h1)
    · simp only [mapSet, if_neg hk] at h
      rcases List.mem_cons.1 h with h1 | h1
      · exact Or.inr (h1 ▸ List.mem_cons_self _ _)
      · rcases ih h1 with h2 | h2
        · exact Or.inl h2
        · exact Or.inr (List.mem_cons_of_mem _ h2)

theorem loadPairs_inv {Q : String × α → Prop} {m : SMap α} {ps : List (String × α)}
    (hm : ∀ p ∈ m, Q p) (hps : ∀ p ∈ ps, Q p) : ∀ p ∈ loadPairs m ps, Q p := by
  induction ps generalizing m with
  | nil => simpa [loadPairs] using hm
  | cons hd tl ih =>
    obtain ⟨k, v⟩ := hd
    simp only [loadPairs]
    refine ih (fun p hp => ?_) (fun p hp => hps p (List.mem_cons_of_mem _ hp))
    rcases mem_mapSet k v m hp with h1 | h1
    · exact h1 ▸ hps (k, v) (List.mem_cons_self _ _)
    · exact hm p h1

theorem mapGet_mem {m : SMap α} {k : String} {v : α} (h : mapGet m k = some v) :
    (k, v) ∈ m := by
  induction m with
  | nil => simp [mapGet] at h
  | cons hd tl ih =>
    obtain ⟨k', v'⟩ := hd
    by_cases hk : k' = k
    · subst hk
      simp [mapGet] at h
      exact h ▸ List.mem_cons_self _ _
    · simp only [mapGet, if_neg hk] at h
      exact List.mem_cons_of_mem _ (ih h)

theorem mem_mapValues {v : α} {m : SMap α} :
    v ∈ mapValues m ↔ ∃ p ∈ m, p.2 = v := by
  simp [mapValues]

theorem mem_insByKey {x a : α} (key : α → Nat) (l : List α) :
    x ∈ insByKey key a l ↔ x = a ∨ x ∈ l := by
  induction l with
  | nil => simp [insByKey]
  | cons b tl ih =>
    by_cases h : key a ≤ key b
    · simp [insByKey, h]
    · simp only [insByKey, if_neg h, List.mem_cons, ih]
      tauto

theorem mem_sortByKey {x : α} (key : α → Nat) (l : List α) :
    x ∈ sortByKey key l ↔ x ∈ l := by
  induction l with
  | nil => simp [sortByKey]
  | cons a tl ih => simp [sortByKey, mem_insByKey, ih]

theorem pairwise_insByKey (key : α → Nat) (a : α) (l : List α)
    (h : l.Pairwise (fun x y => key x ≤ key y)) :
    (insByKey key a l).Pairwise (fun x y => key x ≤ key y) := by
  induction l with
  | nil => simp [insByKey]
  | cons b tl ih =>
    rcases List.pairwise_cons.1 h with ⟨hb, htl⟩
    by_cases h1 : key a ≤ key b
    · simp only [insByKey, if_pos h1]
      refine List.pairwise_cons.2 ⟨fun y hy => ?_, h⟩
      rcases List.mem_cons.1 hy with h2 | h2
      · exact h2 ▸ h1
      · exact le_trans h1 (hb y h2)
    · simp only [insByKey, if_neg h1]
      refine List.pairwise_cons.2 ⟨fun y hy => ?_, ih htl⟩
      rcases (mem_insByKey key tl).1 hy with h2 | h2
      · exact h2 ▸ le_of_lt (Nat.lt_of_not_le h1)
      · exact hb y h2

theorem sorted_sortByKey (key : α → Nat) (l : List α) :
    (sortByKey key l).Pairwise (fun x y => key x ≤ key y) := by
  induction l with
  | nil => simp [sortByKey]
  | cons a tl ih => exact pairwise_insByKey key a _ ih

theorem mem_applyIfStr {p : String → α → Bool} {o : Option String} {l : List α} {x : α}
    (ho : o ≠ some "") :
    x ∈ applyIfStr o (fun s l => l.filter (p s)) l ↔
      x ∈ l ∧ ∀ s, o = some s → p s x = true := by
  cases o with
  | none => simp [applyIfStr]
  | some s =>
    have hne : s ≠ "" := fun h => ho (h ▸ rfl)
    simp [applyIfStr, hne, List.mem_filter]

theorem length_filterMap_isSome (f : α → Option β) (l : List α) :
    (l.filterMap f).length = (l.filter (fun a => (f a).isSome)).length := by
  induction l with
  | nil => rfl
  | cons hd tl ih =>
    cases h : f hd <;> simp [List.filterMap_cons, h, ih, List.filter_cons]

theorem countOccur_filterMap [DecidableEq β] (f : α → Option β) (l : List α) (b : β) :
    countOccur b (l.filterMap f) = (l.filter (fun a => f a = some b)).length := by
  simp only [countOccur]
  induction l with
  | nil => rfl
  | cons hd tl ih =>
    cases h : f hd with
    | none => simp [List.filterMap_cons, h, ih, List.filter_cons]
    | some c =>
      by_cases hc : c = b <;>
        simp [List.filterMap_cons, h, ih, List.filter_cons, hc]

theorem mem_filterMap_filter_self_append (f : α → Option β) (p : α → Bool)
    (l : List α) (x : β) :
    (x ∈ ((l ++ l).filter p).filterMap f) ↔ x ∈ (l.filter p).filterMap f := by
  simp [List.filter_append, List.filterMap_append]

/-! ## Store invariant lemmas -/

theorem techKeysOk_indexBundle (st : AttackDataStore) (b : StixBundle)
    (h : techKeysOk st) : techKeysOk (indexBundle st b) := by
  intro p hp
  simp only [indexBundle] at hp
  exact loadPairs_inv h
    (fun q hq => by obtain ⟨t, _, rfl⟩ := List.mem_map.1 hq; rfl) p hp

theorem techKeysOk_load (bs : List StixBundle) :
    techKeysOk (loadFromBundles emptyStore bs) := by
  have key : ∀ st, techKeysOk st → techKeysOk (bs.foldl indexBundle st) := by
    induction bs with
    | nil => intro st h; exact h
    | cons b tl ih => intro st h; exact ih _ (techKeysOk_indexBundle st b h)
  intro p hp
  refine key emptyStore (fun q hq => by simp [emptyStore] at hq) p ?_
  simpa [loadFromBundles] using hp

theorem parseTactics_order (b : StixBundle) :
    ∀ t ∈ parseTactics b ENTERPRISE_TACTIC_ORDER,
      t.order = (lookupOrder ENTERPRISE_TACTIC_ORDER t.shortName).getD 99 := by
  intro t ht
  rw [parseTactics] at ht
  obtain ⟨o, _, rfl⟩ := List.mem_map.1 ((mem_sortByKey _ _).1 ht)
  rfl

theorem tacticOrderOk_indexBundle (st : AttackDataStore) (b : StixBundle)
    (h : tacticOrderOk st) : tacticOrderOk (indexBundle st b) := by
  intro t ht
  obtain ⟨p, hp, hv⟩ := mem_mapValues.1 ht
  simp only [indexBundle] at hp
  have hq : p.2.order = (lookupOrder ENTERPRISE_TACTIC_ORDER p.2.shortName).getD 99 :=
    loadPairs_inv (Q := fun p =>
        p.2.order = (lookupOrder ENTERPRISE_TACTIC_ORDER p.2.shortName).getD 99)
      (fun q hq => h q.2 (mem_mapValues.2 ⟨q, hq, rfl⟩))
      (fun q hq => by obtain ⟨ta, hta, rfl⟩ := List.mem_map.1 hq
                      exact parseTactics_order b ta hta)
      p hp
  rw [hv] at hq
  exact hq

theorem tacticOrderOk_load (bs : List StixBundle) :
    tacticOrderOk (loadFromBundles emptyStore bs) := by
  have key : ∀ st, tacticOrderOk st → tacticOrderOk (bs.foldl indexBundle st) := by
    induction bs with
    | nil => intro st h; exact h
    | cons b tl ih => intro st h; exact ih _ (tacticOrderOk_indexBundle st b h)
  intro t ht
  refine key emptyStore (fun q hq => by simp [emptyStore, mapValues] at hq) t ?_
  simpa [loadFromBundles] using ht

/-! ## Endpoint-liveness helper lemmas for composite queries -/

theorem liveTech_usage {rels : List AttackRelationship} {m : SMap AttackTechnique}
    {e : TechUsage}
    (h : e ∈ rels.filterMap (fun r =>
      match mapGet m r.targetRef with
      | none => none
      | some t => if t.deprecated || t.revoked then none else some ⟨t, r.description⟩)) :
    e.technique.deprecated = false ∧ e.technique.revoked = false := by
  obtain ⟨r, _, hfr⟩ := List.mem_filterMap.1 h
  cases hm : mapGet m r.targetRef with
  | none => rw [hm] at hfr; exact absurd hfr (by simp)
  | some t =>
    rw [hm] at hfr
    dsimp only at hfr
    by_cases hdr : (t.deprecated || t.revoked) = true
    · rw [if_pos hdr] at hfr; exact absurd hfr (by simp)
    · have hdr' : (t.deprecated || t.revoked) = false := by
        simpa using hdr
      rw [if_neg hdr] at hfr
      obtain rfl : (⟨t, r.description⟩ : TechUsage) = e := by
        simpa using hfr
      exact Bool.or_eq_false_iff.1 hdr'

theorem liveTech_entry {rels : List AttackRelationship} {m : SMap AttackTechnique}
    {e : TechniqueEntry}
    (h : e ∈ rels.filterMap (fun r =>
      match mapGet m r.targetRef with
      | none => none
      | some t => if t.deprecated || t.revoked then none else some ⟨t, r.description⟩)) :
    e.technique.deprecated = false ∧ e.technique.revoked = false := by
  obtain ⟨r, _, hfr⟩ := List.mem_filterMap.1 h
  cases hm : mapGet m r.targetRef with
  | none => rw [hm] at hfr; exact absurd hfr (by simp)
  | some t =>
    rw [hm] at hfr
    dsimp only at hfr
    by_cases hdr : (t.deprecated || t.revoked) = true
    · rw [if_pos hdr] at hfr; exact absurd hfr (by simp)
    · have hdr' : (t.deprecated || t.revoked) = false := by
        simpa using hdr
      rw [if_neg hdr] at hfr
      obtain rfl : (⟨t, r.description⟩ : TechniqueEntry) = e := by
        simpa using hfr
      exact Bool.or_eq_false_iff.1 hdr'

theorem liveMit_entry {rels : List AttackRelationship} {m : SMap AttackMitigation}
    {e : MitigationEntry}
    (h : e ∈ rels.filterMap (fun r =>
      match mapGet m r.sourceRef with
      | none => none
      | some t => if t.deprecated || t.revoked then none else some ⟨t, r.description⟩)) :
    e.mitigation.deprecated = false ∧ e.mitigation.revoked = false := by
  obtain ⟨r, _, hfr⟩ := List.mem_filterMap.1 h
  cases hm : mapGet m r.sourceRef with
  | none => rw [hm] at hfr; exact absurd hfr (by simp)
  | some t =>
    rw [hm] at hfr
    dsimp only at hfr
    by_cases hdr : (t.deprecated || t.revoked) = true
    · rw [if_pos hdr] at hfr; exact absurd hfr (by simp)
    · have hdr' : (t.deprecated || t.revoked) = false := by
        simpa using hdr
      rw [if_neg hdr] at hfr
      obtain rfl : (⟨t, r.description⟩ : MitigationEntry) = e := by
        simpa using hfr
      exact Bool.or_eq_false_iff.1 hdr'

/-! ## Claims -/

/-- Claim C1, counterexample: in `c1Store` the group `intrusion-set--g1`
has a "uses" edge to the software `malware--dep1`, which is marked
deprecated, yet that software appears in the group's used-software result —
`getGroupSoftware` does not drop deprecated or revoked resolved targets,
contradicting the claim's "in particular" instance. -/
theorem claim_C1_counterexample :
    ((getGroupSoftware c1Store "intrusion-set--g1").any
      (fun e => e.software.deprecated || e.software.revoked)) = true := by decide

/-- Claim C1, amended: the technique-resolving and mitigation-resolving
composite queries (group→techniques, software→techniques, both directions
of mitigation↔technique, component→detected-techniques) drop any resolved
opposite endpoint that is deprecated or revoked, and none of them drops a
result based on the relationship itself (a resolved live endpoint always
yields an entry); but group→software and software→groups drop only
unresolvable endpoints: a deprecated or revoked software still appears in
a group's used-software result, and symmetrically for groups. -/
theorem claim_C1_amended (st : AttackDataStore) :
    (∀ k e, e ∈ getGroupTechniques st k →
      e.technique.deprecated = false ∧ e.technique.revoked = false) ∧
    (∀ k e, e ∈ getSoftwareTechniques st k →
      e.technique.deprecated = false ∧ e.technique.revoked = false) ∧
    (∀ k e, e ∈ getMitigationsForTechnique st k →
      e.mitigation.deprecated = false ∧ e.mitigation.revoked = false) ∧
    (∀ k e, e ∈ getTechniquesForMitigation st k →
      e.technique.deprecated = false ∧ e.technique.revoked = false) ∧
    (∀ k t, t ∈ getTechniquesDetectedByComponent st k →
      t.deprecated = false ∧ t.revoked = false) ∧
    (∀ k r s, r ∈ st.relationships → r.sourceRef = k → r.relationshipType = "uses" →
      mapGet st.softwareByStixId r.targetRef = some s →
      (⟨s⟩ : SoftwareEntry) ∈ getGroupSoftware st k) ∧
    (∀ k r g, r ∈ st.relationships → r.targetRef = k → r.relationshipType = "uses" →
      mapGet st.groupsByStixId r.sourceRef = some g →
      (⟨g⟩ : GroupEntry) ∈ getSoftwareGroups st k) := by
  refine ⟨fun k e he => ?_, fun k e he => ?_, fun k e he => ?_, fun k e he => ?_,
    fun k t ht => ?_, fun k r s hr hsrc hty hm => ?_, fun k r g hr htgt hty hm => ?_⟩
  · exact liveTech_usage he
  · exact liveTech_usage he
  · rw [getMitigationsForTechnique] at he
    cases hl : mapGet st.techniques (strUpper k) with
    | none => rw [hl] at he; exact absurd he (by simp)
    | some tech => rw [hl] at he; exact liveMit_entry he
  · rw [getTechniquesForMitigation] at he
    cases hl : mapGet st.mitigations (strUpper k) with
    | none => rw [hl] at he; exact absurd he (by simp)
    | some mit => rw [hl] at he; exact liveTech_entry he
  · rw [getTechniquesDetectedByComponent] at ht
    obtain ⟨i, _, hfi⟩ := List.mem_filterMap.1 ht
    cases hm : mapGet st.techniquesByStixId i with
    | none => rw [hm] at hfi; exact absurd hfi (by simp)
    | some t' =>
      rw [hm] at hfi
      dsimp only at hfi
      by_cases hlive : (!t'.deprecated && !t'.revoked) = true
      · rw [if_pos hlive] at hfi
        obtain rfl : t' = t := by simpa using hfi
        simpa [Bool.and_eq_true] using hlive
      · rw [if_neg hlive] at hfi
        exact absurd hfi (by simp)
  · rw [getGroupSoftware]
    refine List.mem_filterMap.2 ⟨r, List.mem_filter.2 ⟨hr, ?_⟩, ?_⟩
    · simp [hsrc, hty]
    · rw [hm]
  · rw [getSoftwareGroups]
    refine List.mem_filterMap.2 ⟨r, List.mem_filter.2 ⟨hr, ?_⟩, ?_⟩
    · simp [htgt, hty]
    · rw [hm]

/-- Claim C1, witness: the deprecated software of `c1Bundle` is resolvable
from its "uses" edge and, by the amended claim, appears in the group's
used-software result. -/
theorem claim_C1_witness :
    (⟨swDep⟩ : SoftwareEntry) ∈ getGroupSoftware c1Store "intrusion-set--g1" :=
  (claim_C1_amended c1Store).2.2.2.2.2.1 "intrusion-set--g1" relC1 swDep
    (by decide) rfl rfl (by decide)

/-- Claim C2, counterexample: in `c2Store` a technique with public id
`"t9999x"` (lowercase letters) is present among the indexed techniques,
yet `getTechnique` on that very id — the identity letter-casing variant —
returns nothing, because `indexBundle` keys the primary map by the raw id
while `getTechnique` probes with the uppercased id. -/
theorem claim_C2_counterexample :
    getTechnique c2Store "t9999x" = none ∧
    ((mapValues c2Store.techniques).any (fun t => t.id == "t9999x")) = true := by
  exact ⟨by decide, by decide⟩

/-- Claim C2, amended: for every technique t in a store built by loading
bundles whose public id is unchanged by uppercasing (true of all canonical
ATT&CK ids), lookup round-trips case-insensitively: every string s with
`strUpper s = strUpper t.id` finds exactly t. -/
theorem claim_C2_amended (bs : List StixBundle) (k : String) (t : AttackTechnique)
    (h : mapGet (loadFromBundles emptyStore bs).techniques k = some t)
    (hup : strUpper t.id = t.id) (s : String) (hs : strUpper s = strUpper t.id) :
    getTechnique (loadFromBundles emptyStore bs) s = some t := by
  have hkt : k = t.id := techKeysOk_load bs (k, t) (mapGet_mem h)
  rw [getTechnique, hs, hup, ← hkt]
  exact h

/-- Claim C2, witness: `T1059` from the mock bundle is found by the
lowercase probe `"t1059"`. -/
theorem claim_C2_witness :
    getTechnique (loadFromBundles emptyStore [mockBundle]) "t1059" = some techT1059 :=
  claim_C2_amended [mockBundle] "T1059" techT1059 (by decide) (by decide) "t1059" (by decide)

/-- Claim C3, counterexample: `c3Bundle` holds an attack-pattern with the
explicit sub-technique flag set but no reference list, so its extracted
public id is `""`; the parser marks it a sub-technique with `parentId`
equal to `some ""` — an empty parent id, contradicting the claim's
"parentId is non-empty". -/
theorem claim_C3_counterexample :
    ((parseTechniques c3Bundle).any
      (fun t => t.isSubtechnique && t.parentId == some "")) = true := by decide

/-- Claim C3, amended: for every parsed technique t, if t is a
sub-technique then its parentId is present and equals its public id
truncated before the first `'.'` (which is non-empty whenever the id does
not start with the separator and is non-empty — in particular empty when
the id is empty); and every technique whose public id contains the
separator is marked a sub-technique. -/
theorem claim_C3_amended (b : StixBundle) :
    ∀ t ∈ parseTechniques b,
      (t.isSubtechnique = true → t.parentId = some (headSegment t.id)) ∧
      (strContains t.id "." = true → t.isSubtechnique = true) ∧
      (t.isSubtechnique = true → ∀ c cs, t.id.data = c :: cs → c ≠ '.' →
        t.parentId ≠ some "") := by
  intro t ht
  rw [parseTechniques] at ht
  obtain ⟨o, _, rfl⟩ := List.mem_map.1 ht
  dsimp only
  refine ⟨fun hsub => ?_, fun hdot => ?_, fun hsub c cs hdata hc habs => ?_⟩
  · rw [if_pos hsub]
  · rw [hdot, Bool.or_true]
  · rw [if_pos hsub] at habs
    have hseg : headSegment (getExternalId o.external_references) = "" :=
      Option.some.inj habs
    rw [headSegment] at hseg
    rw [hdata] at hseg
    have hstep : List.takeWhile (fun ch => !(ch == '.')) (c :: cs) =
        c :: List.takeWhile (fun ch => !(ch == '.')) cs := by
      simp [List.takeWhile_cons, hc]
    rw [hstep] at hseg
    have hd : c :: List.takeWhile (fun ch => !(ch == '.')) cs = ("" : String).data :=
      congrArg String.data hseg
    simp at hd

/-- Claim C3, witness: the `T1059.001` sub-technique of `w3Bundle` is
flagged by its separator and its parent id is the truncation `T1059`. -/
theorem claim_C3_witness :
    subTechW.isSubtechnique = true ∧ subTechW.parentId = some (headSegment subTechW.id) := by
  have h := claim_C3_amended w3Bundle subTechW (by decide)
  have hsub : subTechW.isSubtechnique = true := h.2.1 (by decide)
  exact ⟨hsub, h.1 hsub⟩

/-- Claim C4: for every store and each flagged entity kind (techniques,
groups, software, mitigations), an entity with both flags false is in the
default listing, and an entity with either flag true is absent from the
default listing but present when includeDeprecated is requested. -/
theorem claim_C4 (st : AttackDataStore) :
    (∀ t ∈ mapValues st.techniques,
      (t.deprecated = false → t.revoked = false → t ∈ getAllTechniques st false) ∧
      ((t.deprecated = true ∨ t.revoked = true) →
        t ∉ getAllTechniques st false ∧ t ∈ getAllTechniques st true)) ∧
    (∀ g ∈ mapValues st.groups,
      (g.deprecated = false → g.revoked = false → g ∈ getAllGroups st false) ∧
      ((g.deprecated = true ∨ g.revoked = true) →
        g ∉ getAllGroups st false ∧ g ∈ getAllGroups st true)) ∧
    (∀ s ∈ mapValues st.software,
      (s.deprecated = false → s.revoked = false → s ∈ getAllSoftware st false) ∧
      ((s.deprecated = true ∨ s.revoked = true) →
        s ∉ getAllSoftware st false ∧ s ∈ getAllSoftware st true)) ∧
    (∀ m ∈ mapValues st.mitigations,
      (m.deprecated = false → m.revoked = false → m ∈ getAllMitigations st false) ∧
      ((m.deprecated = true ∨ m.revoked = true) →
        m ∉ getAllMitigations st false ∧ m ∈ getAllMitigations st true)) := by
  refine ⟨fun t ht => ⟨fun hd hr => ?_, fun hdr => ⟨fun hmem => ?_, ?_⟩⟩,
          fun g hg => ⟨fun hd hr => ?_, fun hdr => ⟨fun hmem => ?_, ?_⟩⟩,
          fun s hs => ⟨fun hd hr => ?_, fun hdr => ⟨fun hmem => ?_, ?_⟩⟩,
          fun m hm => ⟨fun hd hr => ?_, fun hdr => ⟨fun hmem => ?_, ?_⟩⟩⟩
  · exact List.mem_filter.2 ⟨ht, by simp [hd, hr]⟩
  · have h2 := (List.mem_filter.1 hmem).2
    rcases hdr with h | h <;> simp [h] at h2
  · exact ht
  · exact List.mem_filter.2 ⟨hg, by simp [hd, hr]⟩
  · have h2 := (List.mem_filter.1 hmem).2
    rcases hdr with h | h <;> simp [h] at h2
  · exact hg
  · exact List.mem_filter.2 ⟨hs, by simp [hd, hr]⟩
  · have h2 := (List.mem_filter.1 hmem).2
    rcases hdr with h | h <;> simp [h] at h2
  · exact hs
  · exact List.mem_filter.2 ⟨hm, by simp [hd, hr]⟩
  · have h2 := (List.mem_filter.1 hmem).2
    rcases hdr with h | h <;> simp [h] at h2
  · exact hm

/-- Claim C4, witness: in the mock store the live technique T1059 is in
the default listing; the deprecated T9998 is absent from the default
listing but present with includeDeprecated. -/
theorem claim_C4_witness :
    techT1059 ∈ getAllTechniques mockStore false ∧
    techT9998 ∉ getAllTechniques mockStore false ∧
    techT9998 ∈ getAllTechniques mockStore true := by
  have h := claim_C4 mockStore
  exact ⟨(h.1 techT1059 (by decide)).1 (by decide) (by decide),
    ((h.1 techT9998 (by decide)).2 (Or.inl (by decide))).1,
    ((h.1 techT9998 (by decide)).2 (Or.inl (by decide))).2⟩

/-- Claim C7: `initialize` uses a fresh complete cache without fetching;
otherwise it fetches; a failed fetch falls back to any parseable cache with
no surfaced failure; and it fails only when the fetch fails and no complete
cached copy exists, in which case the store — indexed maps and loaded flag —
is returned unchanged. -/
theorem claim_C7 (env : CacheEnv) (st : AttackDataStore) :
    (env.filesPresent = true → env.stale = false → ∀ c, env.cachedParse = some c →
      initStore env st = (loadFromBundles st c, none)) ∧
    ((env.filesPresent = false ∨ env.stale = true) → ∀ f, env.fetchResult = some f →
      initStore env st = (loadFromBundles st f, none)) ∧
    (env.fetchResult = none → ∀ c, env.cachedParse = some c →
      initStore env st = (loadFromBundles st c, none)) ∧
    (env.fetchResult = none → env.cachedParse = none →
      initStore env st = (st, some "Failed to load ATT&CK data")) := by
  refine ⟨fun hp hs c hc => ?_, fun hps f hf => ?_, fun hf c hc => ?_, fun hf hc => ?_⟩
  · simp [initStore, hp, hs, hc]
  · rcases hps with h | h <;> simp [initStore, h, hf]
  · by_cases hfp : env.filesPresent = true
    · by_cases hst : env.stale = true
      · simp [initStore, hfp, hst, hf, hc]
      · have hst' : env.stale = false := by simpa using hst
        simp [initStore, hfp, hst', hc]
    · have hfp' : env.filesPresent = false := by simpa using hfp
      simp [initStore, hfp', hf, hc]
  · by_cases hfp : env.filesPresent = true
    · by_cases hst : env.stale = true
      · simp [initStore, hfp, hst, hf, hc]
      · have hst' : env.stale = false := by simpa using hst
        simp [initStore, hfp, hst', hf, hc]
    · have hfp' : env.filesPresent = false := by simpa using hfp
      simp [initStore, hfp', hf, hc]

/-- Claim C7, witness: with no cache and a failed fetch, `initialize` fails
and leaves the (empty) store untouched. -/
theorem claim_C7_witness :
    initStore ⟨false, true, none, none⟩ emptyStore =
      (emptyStore, some "Failed to load ATT&CK data") :=
  (claim_C7 ⟨false, true, none, none⟩ emptyStore).2.2.2 rfl rfl

/-- Claim C10: supplying the empty string for an optional string filter
field behaves identically to omitting it — for every store, every other
filter combination, and each of the four string fields of
`searchTechniques` (and the query fields of `searchGroups` and
`searchSoftware`); with the empty query alone, `searchTechniques` returns
exactly the default listing. -/
theorem claim_C10 (st : AttackDataStore) :
    (∀ ta pl ds sub, searchTechniques st ⟨some "", ta, pl, ds, sub⟩ =
      searchTechniques st ⟨none, ta, pl, ds, sub⟩) ∧
    (∀ q pl ds sub, searchTechniques st ⟨q, some "", pl, ds, sub⟩ =
      searchTechniques st ⟨q, none, pl, ds, sub⟩) ∧
    (∀ q ta ds sub, searchTechniques st ⟨q, ta, some "", ds, sub⟩ =
      searchTechniques st ⟨q, ta, none, ds, sub⟩) ∧
    (∀ q ta pl sub, searchTechniques st ⟨q, ta, pl, some "", sub⟩ =
      searchTechniques st ⟨q, ta, pl, none, sub⟩) ∧
    (searchTechniques st ⟨some "", none, none, none, none⟩ = getAllTechniques st false) ∧
    (∀ tq, searchGroups st ⟨some "", tq⟩ = searchGroups st ⟨none, tq⟩) ∧
    (∀ tq ty, searchSoftware st ⟨some "", tq, ty⟩ = searchSoftware st ⟨none, tq, ty⟩) := by
  refine ⟨fun ta pl ds sub => rfl, fun q pl ds sub => rfl, fun q ta ds sub => rfl,
    fun q ta pl sub => rfl, rfl, fun tq => rfl, fun tq ty => rfl⟩

/-! ## Filter-predicate bridging lemmas -/

theorem kwTech_iff (q : String) (t : AttackTechnique) :
    (strContains (strLower t.name) (strLower q) ||
     strContains (strLower t.description) (strLower q) ||
     strContains (strLower t.id) (strLower q)) = true ↔ keywordHitTech q t := by
  simp [keywordHitTech, icIncludes, Bool.or_eq_true, or_assoc]

theorem kwGroup_iff (q : String) (g : AttackGroup) :
    (strContains (strLower g.name) (strLower q) ||
     strContains (strLower g.description) (strLower q) ||
     g.aliases.any (fun a => strContains (strLower a) (strLower q))) = true ↔
      keywordHitGroup q g := by
  simp [keywordHitGroup, icIncludes, Bool.or_eq_true, or_assoc, List.any_eq_true]

theorem kwSoftware_iff (q : String) (s : AttackSoftware) :
    (strContains (strLower s.name) (strLower q) ||
     strContains (strLower s.description) (strLower q) ||
     s.aliases.any (fun a => strContains (strLower a) (strLower q))) = true ↔
      keywordHitSoftware q s := by
  simp [keywordHitSoftware, icIncludes, Bool.or_eq_true, or_assoc, List.any_eq_true]

theorem tacticHit_iff (q : String) (t : AttackTechnique) :
    (t.tactics.any (fun ta => strLower ta == strLower q)) = true ↔ tacticHit q t := by
  simp [tacticHit, List.any_eq_true]

theorem platformHit_iff (q : String) (t : AttackTechnique) :
    (t.platforms.any (fun p => strLower p == strLower q)) = true ↔ platformHit q t := by
  simp [platformHit, List.any_eq_true]

theorem dataSourceHit_iff (q : String) (t : AttackTechnique) :
    (t.dataSources.any (fun d => strContains (strLower d) (strLower q))) = true ↔
      dataSourceHit q t := by
  simp [dataSourceHit, icIncludes, List.any_eq_true]

/-- Claim C5: a non-deprecated, non-revoked entity is in a search result iff
it satisfies every filter actually imposed (strict conjunction over the
default listing); keyword matching is case-insensitive substring over
name/description/public id for techniques and name/description/aliases for
groups and software; an absent filter field imposes no constraint.
(String filters are assumed non-empty; the empty string is the code's
"absent" encoding, settled separately by claim C10.) -/
theorem claim_C5 (st : AttackDataStore) :
    (∀ opts : TechSearchOpts, opts.query ≠ some "" → opts.tactic ≠ some "" →
      opts.platform ≠ some "" → opts.dataSource ≠ some "" → ∀ t,
      (t ∈ searchTechniques st opts ↔
        t ∈ getAllTechniques st false ∧
        (∀ q, opts.query = some q → keywordHitTech q t) ∧
        (∀ q, opts.tactic = some q → tacticHit q t) ∧
        (∀ q, opts.platform = some q → platformHit q t) ∧
        (∀ q, opts.dataSource = some q → dataSourceHit q t) ∧
        (∀ bsub, opts.isSubtechnique = some bsub → t.isSubtechnique = bsub))) ∧
    (∀ oq, oq ≠ some "" → ∀ g,
      (g ∈ searchGroups st ⟨oq, none⟩ ↔
        g ∈ getAllGroups st false ∧ ∀ q, oq = some q → keywordHitGroup q g)) ∧
    (∀ oq oty, oq ≠ some "" → oty ≠ some "" → ∀ s,
      (s ∈ searchSoftware st ⟨oq, none, oty⟩ ↔
        s ∈ getAllSoftware st false ∧
        (∀ q, oq = some q → keywordHitSoftware q s) ∧
        (∀ ty, oty = some ty → s.type = ty))) := by
  refine ⟨fun opts hq hta hpl hds t => ?_, fun oq hq g => ?_,
    fun oq oty hq hty s => ?_⟩
  · have c1 := fun q => kwTech_iff q t
    have c2 := fun q => tacticHit_iff q t
    have c3 := fun q => platformHit_iff q t
    have c4 := fun q => dataSourceHit_iff q t
    rw [searchTechniques]
    cases hsub : opts.isSubtechnique with
    | none =>
      rw [mem_applyIfStr hds, mem_applyIfStr hpl, mem_applyIfStr hta,
        mem_applyIfStr hq]
      simp only [c1, c2, c3, c4]
      constructor
      · rintro ⟨⟨⟨⟨h0, h1⟩, h2⟩, h3⟩, h4⟩
        exact ⟨h0, h1, h2, h3, h4, fun bsub hb => nomatch hb⟩
      · rintro ⟨h0, h1, h2, h3, h4, _⟩
        exact ⟨⟨⟨⟨h0, h1⟩, h2⟩, h3⟩, h4⟩
    | some bsub =>
      rw [List.mem_filter, mem_applyIfStr hds, mem_applyIfStr hpl,
        mem_applyIfStr hta, mem_applyIfStr hq]
      simp only [c1, c2, c3, c4, beq_iff_eq]
      constructor
      · rintro ⟨⟨⟨⟨⟨h0, h1⟩, h2⟩, h3⟩, h4⟩, h5⟩
        exact ⟨h0, h1, h2, h3, h4, fun b hb => (Option.some.inj hb) ▸ h5⟩
      · rintro ⟨h0, h1, h2, h3, h4, h5⟩
        exact ⟨⟨⟨⟨⟨h0, h1⟩, h2⟩, h3⟩, h4⟩, h5 bsub rfl⟩
  · have c1 := fun q => kwGroup_iff q g
    rw [searchGroups]
    show g ∈ applyIfStr oq _ _ ↔ _
    rw [mem_applyIfStr hq]
    simp only [c1]
  · have c1 := fun q => kwSoftware_iff q s
    rw [searchSoftware]
    show s ∈ applyIfStr oq _ (applyIfStr oty _ _) ↔ _
    rw [mem_applyIfStr hq, mem_applyIfStr hty]
    simp only [c1, beq_iff_eq]
    constructor
    · rintro ⟨⟨h0, h1⟩, h2⟩
      exact ⟨h0, h2, h1⟩
    · rintro ⟨h0, h1, h2⟩
      exact ⟨⟨h0, h2⟩, h1⟩

/-- Claim C5, witness: the keyword "phish" with no other filters finds
exactly the phishing technique in the mock store. -/
theorem claim_C5_witness :
    techT1566 ∈ searchTechniques mockStore ⟨some "phish", none, none, none, none⟩ := by
  refine ((claim_C5 mockStore).1 ⟨some "phish", none, none, none, none⟩
    (by decide) (by decide) (by decide) (by decide) techT1566).2 ?_
  refine ⟨by decide, fun q hqv => ?_, fun q hqv => Option.noConfusion hqv,
    fun q hqv => Option.noConfusion hqv, fun q hqv => Option.noConfusion hqv,
    fun bsub hb => Option.noConfusion hb⟩
  obtain rfl : q = "phish" := (Option.some.inj hqv).symm
  exact Or.inl (by decide)

/-! ## Counting lemmas for composite queries -/

theorem countOccur_filterMap_filter [DecidableEq β] (p : α → Bool) (f : α → Option β)
    (l : List α) (b : β) :
    countOccur b ((l.filter p).filterMap f) =
      (l.filter (fun a => p a && (f a == some b))).length := by
  simp only [countOccur]
  induction l with
  | nil => rfl
  | cons hd tl ih =>
    by_cases hp : p hd = true
    · cases hf : f hd with
      | none => simp [List.filter_cons, hp, hf, List.filterMap_cons, ih]
      | some c =>
        by_cases hc : c = b <;>
          simp [List.filter_cons, hp, hf, List.filterMap_cons, hc, ih]
    · have hp' : p hd = false := by simpa using hp
      simp [List.filter_cons, hp', ih]

theorem length_filterMap_filter (p : α → Bool) (f : α → Option β) (l : List α) :
    ((l.filter p).filterMap f).length =
      (l.filter (fun a => p a && (f a).isSome)).length := by
  induction l with
  | nil => rfl
  | cons hd tl ih =>
    by_cases hp : p hd = true
    · cases hf : f hd with
      | none => simp [List.filter_cons, hp, hf, List.filterMap_cons, ih]
      | some c => simp [List.filter_cons, hp, hf, List.filterMap_cons, ih]
    · have hp' : p hd = false := by simpa using hp
      simp [List.filter_cons, hp', ih]

/-- Claim C6: composite-query symmetry. For a "uses" edge from a group to a
software entity with both endpoints resolvable and live, the software
appears in the group's used-software result and the group in the software's
using-groups result, each exactly once per such edge (the occurrence count
equals the number of matching edges); and a "uses" edge whose target
resolves to a live technique contributes its entry to the source's
used-techniques result, again exactly one entry per resolvable live edge. -/
theorem claim_C6 (st : AttackDataStore) :
    (∀ r A B, r ∈ st.relationships → r.relationshipType = "uses" →
      mapGet st.groupsByStixId r.sourceRef = some A →
      mapGet st.softwareByStixId r.targetRef = some B →
      A.deprecated = false → A.revoked = false →
      B.deprecated = false → B.revoked = false →
      ((⟨B⟩ : SoftwareEntry) ∈ getGroupSoftware st r.sourceRef ∧
       (⟨A⟩ : GroupEntry) ∈ getSoftwareGroups st r.targetRef ∧
       countOccur (⟨B⟩ : SoftwareEntry) (getGroupSoftware st r.sourceRef) =
         (st.relationships.filter (fun x => x.sourceRef == r.sourceRef &&
           x.relationshipType == "uses" &&
           mapGet st.softwareByStixId x.targetRef == some B)).length ∧
       countOccur (⟨A⟩ : GroupEntry) (getSoftwareGroups st r.targetRef) =
         (st.relationships.filter (fun x => x.targetRef == r.targetRef &&
           x.relationshipType == "uses" &&
           mapGet st.groupsByStixId x.sourceRef == some A)).length)) ∧
    (∀ r t, r ∈ st.relationships → r.relationshipType = "uses" →
      mapGet st.techniquesByStixId r.targetRef = some t →
      t.deprecated = false → t.revoked = false →
      ((⟨t, r.description⟩ : TechUsage) ∈ getGroupTechniques st r.sourceRef ∧
       (getGroupTechniques st r.sourceRef).length =
         (st.relationships.filter (fun x => x.sourceRef == r.sourceRef &&
           x.relationshipType == "uses" && liveTechAt st x.targetRef)).length)) := by
  constructor
  · intro r A B hr hty hA hB _ _ _ _
    refine ⟨?_, ?_, ?_, ?_⟩
    · rw [getGroupSoftware]
      refine List.mem_filterMap.2 ⟨r, List.mem_filter.2 ⟨hr, by simp [hty]⟩, ?_⟩
      rw [hB]
    · rw [getSoftwareGroups]
      refine List.mem_filterMap.2 ⟨r, List.mem_filter.2 ⟨hr, by simp [hty]⟩, ?_⟩
      rw [hA]
    · rw [getGroupSoftware, countOccur_filterMap_filter]
      refine congrArg List.length (List.filter_congr fun x _ => ?_)
      cases hm : mapGet st.softwareByStixId x.targetRef with
      | none => simp [hm]
      | some s =>
        have hx : ((⟨s⟩ : SoftwareEntry) == (⟨B⟩ : SoftwareEntry)) = (s == B) := by
          by_cases hsB : s = B
          · subst hsB; simp
          · simp [hsB, SoftwareEntry.mk.injEq]
        simp [hm, hx]
    · rw [getSoftwareGroups, countOccur_filterMap_filter]
      refine congrArg List.length (List.filter_congr fun x _ => ?_)
      cases hm : mapGet st.groupsByStixId x.sourceRef with
      | none => simp [hm]
      | some g =>
        have hx : ((⟨g⟩ : GroupEntry) == (⟨A⟩ : GroupEntry)) = (g == A) := by
          by_cases hgA : g = A
          · subst hgA; simp
          · simp [hgA, GroupEntry.mk.injEq]
        simp [hm, hx]
  · intro r t hr hty hm hd hv
    constructor
    · rw [getGroupTechniques]
      refine List.mem_filterMap.2 ⟨r, List.mem_filter.2 ⟨hr, by simp [hty]⟩, ?_⟩
      rw [hm]
      dsimp only
      rw [if_neg (by simp [hd, hv])]
    · rw [getGroupTechniques, length_filterMap_filter]
      refine congrArg List.length (List.filter_congr fun x _ => ?_)
      cases hx : mapGet st.techniquesByStixId x.targetRef with
      | none => simp [liveTechAt, hx]
      | some t' =>
        cases hdp : t'.deprecated <;> cases hrv : t'.revoked <;>
          simp [liveTechAt, hx, hdp, hrv]

/-- Claim C6, witness: the APT28 → Mimikatz "uses" edge of the mock store
appears in both directional composite queries with multiplicity one. -/
theorem claim_C6_witness :
    (⟨swMimikatz⟩ : SoftwareEntry) ∈ getGroupSoftware mockStore "intrusion-set--apt28" ∧
    (⟨groupApt28⟩ : GroupEntry) ∈ getSoftwareGroups mockStore "malware--mimikatz" := by
  have h := (claim_C6 mockStore).1
    ⟨"intrusion-set--apt28", "malware--mimikatz", "uses", ""⟩ groupApt28 swMimikatz
    (by decide) rfl (by decide) (by decide) rfl rfl rfl rfl
  exact ⟨h.1, h.2.1⟩

/-! ## Ordering lemmas for tactics -/

theorem lookupOrder_mem {tbl : List (String × Nat)} {s : String} {v : Nat}
    (h : lookupOrder tbl s = some v) : ∃ k, (k, v) ∈ tbl := by
  induction tbl with
  | nil => simp [lookupOrder] at h
  | cons hd tl ih =>
    obtain ⟨k', v'⟩ := hd
    by_cases hk : k' = s
    · simp only [lookupOrder, if_pos hk, Option.some.injEq] at h
      exact ⟨k', by simp [h]⟩
    · simp only [lookupOrder, if_neg hk] at h
      obtain ⟨k, hkm⟩ := ih h
      exact ⟨k, List.mem_cons_of_mem _ hkm⟩

/-- Claim C9: every tactic's order comes from the canonical kill-chain
table keyed by short name, defaulting to 99 which is strictly larger than
every canonical value; the default tactic listing is sorted ascending by
this order, so in any loaded store an "initial-access" tactic is listed
strictly before an "execution" tactic. -/
theorem claim_C9 (bs : List StixBundle) :
    (∀ b t, t ∈ parseTactics b ENTERPRISE_TACTIC_ORDER →
      t.order = (lookupOrder ENTERPRISE_TACTIC_ORDER t.shortName).getD 99) ∧
    (∀ s v, lookupOrder ENTERPRISE_TACTIC_ORDER s = some v → v < 99) ∧
    (∀ i j (hi : i < (getAllTactics (loadFromBundles emptyStore bs)).length)
      (hj : j < (getAllTactics (loadFromBundles emptyStore bs)).length),
      ((getAllTactics (loadFromBundles emptyStore bs)).get ⟨i, hi⟩).order <
        ((getAllTactics (loadFromBundles emptyStore bs)).get ⟨j, hj⟩).order → i < j) ∧
    (∀ i j (hi : i < (getAllTactics (loadFromBundles emptyStore bs)).length)
      (hj : j < (getAllTactics (loadFromBundles emptyStore bs)).length),
      ((getAllTactics (loadFromBundles emptyStore bs)).get ⟨i, hi⟩).shortName =
        "initial-access" →
      ((getAllTactics (loadFromBundles emptyStore bs)).get ⟨j, hj⟩).shortName =
        "execution" → i < j) := by
  have hsorted : (getAllTactics (loadFromBundles emptyStore bs)).Pairwise
      (fun a c => (fun t => t.order) a ≤ (fun t => t.order) c) :=
    sorted_sortByKey _ _
  have hget : ∀ i j (hi : i < (getAllTactics (loadFromBundles emptyStore bs)).length)
      (hj : j < (getAllTactics (loadFromBundles emptyStore bs)).length),
      ((getAllTactics (loadFromBundles emptyStore bs)).get ⟨i, hi⟩).order <
        ((getAllTactics (loadFromBundles emptyStore bs)).get ⟨j, hj⟩).order → i < j := by
    intro i j hi hj hlt
    by_contra hle
    push_neg at hle
    rcases Nat.lt_or_ge j i with hji | hij
    · have := List.pairwise_iff_get.1 hsorted ⟨j, hj⟩ ⟨i, hi⟩ hji
      exact absurd hlt (not_lt.2 this)
    · have : j = i := Nat.le_antisymm hle hij
      subst this
      exact absurd hlt (lt_irrefl _)
  refine ⟨fun b t ht => parseTactics_order b t ht, fun s v hv => ?_, hget,
    fun i j hi hj hia hex => ?_⟩
  · obtain ⟨k, hk⟩ := lookupOrder_mem hv
    have : ∀ p ∈ ENTERPRISE_TACTIC_ORDER, p.2 < 99 := by decide
    exact this (k, v) hk
  · have hOrd := tacticOrderOk_load bs
    have hmemI : (getAllTactics (loadFromBundles emptyStore bs)).get ⟨i, hi⟩ ∈
        mapValues (loadFromBundles emptyStore bs).tactics := by
      have hg := List.get_mem (getAllTactics (loadFromBundles emptyStore bs)) i hi
      unfold getAllTactics at hg
      exact (mem_sortByKey (fun t => t.order) _).1 hg
    have hmemJ : (getAllTactics (loadFromBundles emptyStore bs)).get ⟨j, hj⟩ ∈
        mapValues (loadFromBundles emptyStore bs).tactics := by
      have hg := List.get_mem (getAllTactics (loadFromBundles emptyStore bs)) j hj
      unfold getAllTactics at hg
      exact (mem_sortByKey (fun t => t.order) _).1 hg
    have hoi : ((getAllTactics (loadFromBundles emptyStore bs)).get ⟨i, hi⟩).order = 2 := by
      have h2 := hOrd _ hmemI
      rw [hia] at h2
      rw [h2]
      decide
    have hoj : ((getAllTactics (loadFromBundles emptyStore bs)).get ⟨j, hj⟩).order = 3 := by
      have h2 := hOrd _ hmemJ
      rw [hex] at h2
      rw [h2]
      decide
    exact hget i j hi hj (by rw [hoi, hoj]; decide)

/-- Claim C9, witness: in the mock store the "initial-access" tactic (index
0) is listed strictly before the "execution" tactic (index 1). -/
theorem claim_C9_witness : (0 : Nat) < 1 :=
  (claim_C9 [mockBundle]).2.2.2 0 1 (by decide) (by decide) (by decide) (by decide)

/-! ## Double-load lemmas (for reload idempotence) -/

theorem doubleLoad_techniques (b : StixBundle) :
    mapGet (doubleLoad b).techniques = mapGet (singleLoad b).techniques :=
  mapGetFun_loadPairs_twice _ _

theorem doubleLoad_techniquesByStixId (b : StixBundle) :
    mapGet (doubleLoad b).techniquesByStixId = mapGet (singleLoad b).techniquesByStixId :=
  mapGetFun_loadPairs_twice _ _

theorem doubleLoad_tactics (b : StixBundle) :
    mapGet (doubleLoad b).tactics = mapGet (singleLoad b).tactics :=
  mapGetFun_loadPairs_twice _ _

theorem doubleLoad_tacticsByShortName (b : StixBundle) :
    mapGet (doubleLoad b).tacticsByShortName = mapGet (singleLoad b).tacticsByShortName :=
  mapGetFun_loadPairs_twice _ _

theorem doubleLoad_groups (b : StixBundle) :
    mapGet (doubleLoad b).groups = mapGet (singleLoad b).groups :=
  mapGetFun_loadPairs_twice _ _

theorem doubleLoad_groupsByStixId (b : StixBundle) :
    mapGet (doubleLoad b).groupsByStixId = mapGet (singleLoad b).groupsByStixId :=
  mapGetFun_loadPairs_twice _ _

theorem doubleLoad_groupsByName (b : StixBundle) :
    mapGet (doubleLoad b).groupsByName = mapGet (singleLoad b).groupsByName :=
  mapGetFun_loadPairs_twice _ _

theorem doubleLoad_software (b : StixBundle) :
    mapGet (doubleLoad b).software = mapGet (singleLoad b).software :=
  mapGetFun_loadPairs_twice _ _

theorem doubleLoad_softwareByStixId (b : StixBundle) :
    mapGet (doubleLoad b).softwareByStixId = mapGet (singleLoad b).softwareByStixId :=
  mapGetFun_loadPairs_twice _ _

theorem doubleLoad_softwareByName (b : StixBundle) :
    mapGet (doubleLoad b).softwareByName = mapGet (singleLoad b).softwareByName :=
  mapGetFun_loadPairs_twice _ _

theorem doubleLoad_mitigations (b : StixBundle) :
    mapGet (doubleLoad b).mitigations = mapGet (singleLoad b).mitigations :=
  mapGetFun_loadPairs_twice _ _

theorem doubleLoad_mitigationsByStixId (b : StixBundle) :
    mapGet (doubleLoad b).mitigationsByStixId = mapGet (singleLoad b).mitigationsByStixId :=
  mapGetFun_loadPairs_twice _ _

theorem doubleLoad_dataSources (b : StixBundle) :
    mapGet (doubleLoad b).dataSources = mapGet (singleLoad b).dataSources :=
  mapGetFun_loadPairs_twice _ _

theorem doubleLoad_dataSourcesByName (b : StixBundle) :
    mapGet (doubleLoad b).dataSourcesByName = mapGet (singleLoad b).dataSourcesByName :=
  mapGetFun_loadPairs_twice _ _

theorem doubleLoad_relationships (b : StixBundle) :
    (doubleLoad b).relationships =
      (singleLoad b).relationships ++ (singleLoad b).relationships := rfl

theorem doubleLoad_dataComponents (b : StixBundle) :
    (doubleLoad b).dataComponents =
      (singleLoad b).dataComponents ++ (singleLoad b).dataComponents := rfl

/-- Claim C8: reload idempotence. Loading the same bundle twice leaves
every point lookup (by public id, by internal id, by name/alias) with
results identical to a single load; the flat relationship list doubles,
but every composite graph query's result is unchanged as a set. -/
theorem claim_C8 (b : StixBundle) :
    (∀ s, getTechnique (doubleLoad b) s = getTechnique (singleLoad b) s) ∧
    (∀ s, getTechniqueByStixId (doubleLoad b) s = getTechniqueByStixId (singleLoad b) s) ∧
    (∀ s, getTactic (doubleLoad b) s = getTactic (singleLoad b) s) ∧
    (∀ s, getGroup (doubleLoad b) s = getGroup (singleLoad b) s) ∧
    (∀ s, getSoftware (doubleLoad b) s = getSoftware (singleLoad b) s) ∧
    (∀ s, getMitigation (doubleLoad b) s = getMitigation (singleLoad b) s) ∧
    (∀ s, getDataSource (doubleLoad b) s = getDataSource (singleLoad b) s) ∧
    (∀ k x, x ∈ getGroupTechniques (doubleLoad b) k ↔
      x ∈ getGroupTechniques (singleLoad b) k) ∧
    (∀ k x, x ∈ getGroupSoftware (doubleLoad b) k ↔
      x ∈ getGroupSoftware (singleLoad b) k) ∧
    (∀ k x, x ∈ getSoftwareTechniques (doubleLoad b) k ↔
      x ∈ getSoftwareTechniques (singleLoad b) k) ∧
    (∀ k x, x ∈ getSoftwareGroups (doubleLoad b) k ↔
      x ∈ getSoftwareGroups (singleLoad b) k) ∧
    (∀ k x, x ∈ getMitigationsForTechnique (doubleLoad b) k ↔
      x ∈ getMitigationsForTechnique (singleLoad b) k) ∧
    (∀ k x, x ∈ getTechniquesForMitigation (doubleLoad b) k ↔
      x ∈ getTechniquesForMitigation (singleLoad b) k) ∧
    (∀ k x, x ∈ getTechniquesDetectedByComponent (doubleLoad b) k ↔
      x ∈ getTechniquesDetectedByComponent (singleLoad b) k) ∧
    (∀ k x, x ∈ getComponentsForDataSource (doubleLoad b) k ↔
      x ∈ getComponentsForDataSource (singleLoad b) k) := by
  refine ⟨fun s => ?_, fun s => ?_, fun s => ?_, fun s => ?_, fun s => ?_, fun s => ?_,
    fun s => ?_, fun k x => ?_, fun k x => ?_, fun k x => ?_, fun k x => ?_,
    fun k x => ?_, fun k x => ?_, fun k x => ?_, fun k x => ?_⟩
  · simp only [getTechnique, doubleLoad_techniques]
  · simp only [getTechniqueByStixId, doubleLoad_techniquesByStixId]
  · simp only [getTactic, doubleLoad_tactics, doubleLoad_tacticsByShortName]
  · simp only [getGroup, doubleLoad_groups, doubleLoad_groupsByName]
  · simp only [getSoftware, doubleLoad_software, doubleLoad_softwareByName]
  · simp only [getMitigation, doubleLoad_mitigations]
  · simp only [getDataSource, doubleLoad_dataSources, doubleLoad_dataSourcesByName]
  · rw [getGroupTechniques, getGroupTechniques, doubleLoad_relationships]
    simp only [doubleLoad_techniquesByStixId]
    exact mem_filterMap_filter_self_append _ _ _ _
  · rw [getGroupSoftware, getGroupSoftware, doubleLoad_relationships]
    simp only [doubleLoad_softwareByStixId]
    exact mem_filterMap_filter_self_append _ _ _ _
  · rw [getSoftwareTechniques, getSoftwareTechniques, doubleLoad_relationships]
    simp only [doubleLoad_techniquesByStixId]
    exact mem_filterMap_filter_self_append _ _ _ _
  · rw [getSoftwareGroups, getSoftwareGroups, doubleLoad_relationships]
    simp only [doubleLoad_groupsByStixId]
    exact mem_filterMap_filter_self_append _ _ _ _
  · rw [getMitigationsForTechnique, getMitigationsForTechnique]
    simp only [doubleLoad_techniques]
    cases hm : mapGet (singleLoad b).techniques (strUpper k) with
    | none => rfl
    | some tech =>
      dsimp only
      rw [doubleLoad_relationships]
      simp only [doubleLoad_mitigationsByStixId]
      exact mem_filterMap_filter_self_append _ _ _ _
  · rw [getTechniquesForMitigation, getTechniquesForMitigation]
    simp only [doubleLoad_mitigations]
    cases hm : mapGet (singleLoad b).mitigations (strUpper k) with
    | none => rfl
    | some mit =>
      dsimp only
      rw [doubleLoad_relationships]
      simp only [doubleLoad_techniquesByStixId]
      exact mem_filterMap_filter_self_append _ _ _ _
  · rw [getTechniquesDetectedByComponent, getTechniquesDetectedByComponent,
      doubleLoad_relationships]
    simp only [doubleLoad_techniquesByStixId]
    simp [List.filter_append, List.map_append, List.filterMap_append]
  · rw [getComponentsForDataSource, getComponentsForDataSource, doubleLoad_dataComponents]
    simp [List.filter_append]

end Mitre
